import Mathlib

/-!
Shallow embedding of the "Jarvis Commerce Agent" conversational response
engine: the heuristic response generator, the server POST handler, the
conversation session controller (submitMessage) and the speech-capture
result handler (handleResult).  JavaScript strings are modelled as lists
of characters (`Str`); JavaScript string primitives (trim, toLowerCase,
join, case-insensitive regex alternation as substring tests) are defined
below, faithful to their ECMAScript behaviour on the inputs involved.
-/

/-- A JavaScript string, modelled as its sequence of characters. -/
abbrev Str := List Char

/-- Embed a Lean string literal as a `Str`. -/
def str (s : String) : Str := s.data

/-- The whitespace characters recognised by JavaScript string trimming
(WhiteSpace and LineTerminator code points). -/
def jsWhitespaceChars : Str :=
  str "\t\n\x0b\x0c\r \u00A0\u1680\u2000\u2001\u2002\u2003\u2004\u2005\u2006\u2007\u2008\u2009\u200A\u2028\u2029\u202F\u205F\u3000\uFEFF"

/-- Whether a character is JavaScript whitespace. -/
def isJsWs (c : Char) : Bool := jsWhitespaceChars.contains c

/-- JS String.prototype.trim: strip leading and trailing whitespace. -/
def trim (s : Str) : Str :=
  ((s.dropWhile isJsWs).reverse.dropWhile isJsWs).reverse

/-- JS String.prototype.toLowerCase (simple per-character lowering). -/
def lower (s : Str) : Str := s.map Char.toLower

/-- Substring containment: does `pat` occur contiguously in the second list? -/
def containsSub (pat : Str) : Str → Bool
  | [] => pat.isEmpty
  | c :: t => pat.isPrefixOf (c :: t) || containsSub pat t

/-- The test `new RegExp(pattern, "i").test(input)` for a pattern with no
metacharacters: case-insensitive substring containment. -/
def testCI (pattern input : Str) : Bool :=
  containsSub (lower pattern) (lower input)

/-- JS Array.prototype.join(sep). -/
def joinSep (sep : Str) : List Str → Str
  | [] => []
  | [x] => x
  | x :: y :: rest => x ++ sep ++ joinSep sep (y :: rest)

-- sanity scratch
example : trim (str "  hi  ") = str "hi" := by decide
example : testCI (str "Amazon") (str "my amazon day") = true := by decide
example : testCI (str "plan") (str "Plan my day") = true := by decide
example : joinSep (str ", ") [str "a", str "b"] = str "a, b" := by decide

/-- Function `sentenceCase` from the source: return "" for the empty string,
otherwise trim and uppercase the first character. -/
def sentenceCase (text : Str) : Str :=
  if text = [] then []
  else
    match trim text with
    | [] => []
    | c :: cs => Char.toUpper c :: cs

/-- The fixed set of known marketplace names, in canonical order. -/
def marketplaces : List Str :=
  [str "Amazon", str "Flipkart", str "Meesho", str "Myntra"]

/-- The test `/catalog|listing|sheet|excel|sku|product/i.test(input)`. -/
def catalogVocab (input : Str) : Bool :=
  testCI (str "catalog") input || testCI (str "listing") input ||
  testCI (str "sheet") input || testCI (str "excel") input ||
  testCI (str "sku") input || testCI (str "product") input

/-- The test `/task|plan|today|remind|schedule|priority|deadline/i.test(input)`. -/
def taskVocab (input : Str) : Bool :=
  testCI (str "task") input || testCI (str "plan") input ||
  testCI (str "today") input || testCI (str "remind") input ||
  testCI (str "schedule") input || testCI (str "priority") input ||
  testCI (str "deadline") input

/-- The lines pushed for the task-intent section. -/
def taskSection : List Str :=
  [str "🗂️ Daily Ops Blueprint:",
   str "- Prioritise based on impact → revenue, compliance, customer experience.",
   str "- Break work into 90-minute focus blocks with clear Done Definitions.",
   str "- Reserve the final block for QA checks and reporting back to leadership."]

/-- The lines pushed for the catalog-intent section, given the channel plan. -/
def catalogSection (channelPlan : Str) : List Str :=
  [str "🛒 " ++ channelPlan ++ str " Listing Automation:",
   str "- Clean your master sheet: ensure SKU, Title, MRP, Offer Price, Color, Size, Fabric, and Image URLs are present.",
   str "- Use the Catalog Automation Lab panel → upload the latest supplier file, then generate marketplace CSVs.",
   str "- Enrich copy automatically: include 3 USP bullet points, search keywords, and compliance notes for GST/Legal."]

/-- The lines pushed when neither intent matched. -/
def readySection : List Str :=
  [str "🤖 Jarvis Ready:",
   str "- Share a task, question, or catalog sheet—I will prep the steps, automations, and documents you need."]

/-- Follow-up suggestions pushed for task intent. -/
def taskFollowUps : List Str :=
  [str "Should I schedule reminders and sync them to your preferred calendar?",
   str "Want me to draft stakeholder updates once each task is closed?"]

/-- Follow-up suggestions pushed for catalog intent. -/
def catalogFollowUps : List Str :=
  [str "Would you like marketplace-compliant image naming rules generated?",
   str "Need SEO keywords per SKU for sponsored ads?"]

/-- Generic follow-up suggestions pushed when the list would be empty. -/
def genericFollowUps : List Str :=
  [str "Upload the latest catalog so I can generate ready-to-use marketplace sheets.",
   str "Tell me your top priority for today and I will create an execution timeline."]

/-- The server-side structured response type (`reply` required, the other
fields produced by the heuristic generator are always set). -/
structure AssistantResponse where
  reply : Str
  summary : Option Str
  followUps : Option (List Str)
deriving DecidableEq

/-- Function `buildHeuristicResponse` from the source: the deterministic rule-based
response generator. -/
def buildHeuristicResponse (input : Str) : AssistantResponse :=
  let detectedMarketplaces := marketplaces.filter (fun name => testCI name input)
  let wantsCatalog := catalogVocab input || !detectedMarketplaces.isEmpty
  let wantsTasks := taskVocab input
  let channelPlan :=
    if !detectedMarketplaces.isEmpty then joinSep (str ", ") detectedMarketplaces
    else str "Amazon, Flipkart, Meesho, and Myntra"
  let responseSections :=
    (if wantsTasks then taskSection else []) ++
    (if wantsCatalog then catalogSection channelPlan else []) ++
    (if !wantsCatalog && !wantsTasks then readySection else [])
  let followUpsBase :=
    (if wantsTasks then taskFollowUps else []) ++
    (if wantsCatalog then catalogFollowUps else [])
  let followUps := if followUpsBase.isEmpty then genericFollowUps else followUpsBase
  { reply := joinSep (str "\n") (responseSections.map sentenceCase),
    summary := some
      (if wantsCatalog then str "Catalog automation plan prepared with channel-specific actions."
       else if wantsTasks then str "Daily operations plan generated."
       else str "Standing by for instructions."),
    followUps := some followUps }

-- sanity scratch
example : (buildHeuristicResponse (str "")).followUps = some genericFollowUps := by decide
example : sentenceCase (str "  hello") = str "Hello" := by decide
example :
    marketplaces.filter (fun n => testCI n (str "Plan my Amazon Prime Day listings"))
      = [str "Amazon"] := by decide
example : taskVocab (str "Plan my Amazon Prime Day listings") = true := by decide

theorem joinSep_ne_nil (sep h : Str) (t : List Str) (hh : h ≠ []) :
    joinSep sep (h :: t) ≠ [] := by
  cases t with
  | nil => simpa [joinSep] using hh
  | cons y rest => simp [joinSep, hh]

theorem trim_cons_ne_nil (c : Char) (cs : Str) (hc : isJsWs c = false) :
    trim (c :: cs) ≠ [] := by
  unfold trim
  rw [List.dropWhile_cons, if_neg (by simp [hc])]
  intro h
  have h2 : (c :: cs : Str).reverse.dropWhile isJsWs = [] := by
    simpa using h
  have h3 := (List.dropWhile_eq_nil_iff).mp h2 c (by simp)
  simp [hc] at h3

theorem sentenceCase_cons_ne_nil (c : Char) (cs : Str) (hc : isJsWs c = false) :
    sentenceCase (c :: cs) ≠ [] := by
  unfold sentenceCase
  rw [if_neg (by simp : (c :: cs : Str) ≠ [])]
  cases h3 : trim (c :: cs) with
  | nil => exact absurd h3 (trim_cons_ne_nil c cs hc)
  | cons d ds => simp

/-- C1: for every input string (the empty string included) the heuristic
response generator terminates and returns a structured response whose
`reply` text is non-empty. -/
theorem heuristic_reply_ne_nil (input : Str) :
    (buildHeuristicResponse input).reply ≠ [] := by
  cases hT : taskVocab input <;>
    cases hC : (catalogVocab input
        || !(marketplaces.filter (fun name => testCI name input)).isEmpty) <;>
      simp only [buildHeuristicResponse, hT, hC, Bool.not_true, Bool.not_false,
        Bool.false_and, Bool.true_and, Bool.and_false, Bool.and_true, if_true, if_false,
        List.nil_append, List.append_nil, taskSection, readySection, catalogSection,
        List.cons_append, List.map_cons]
  · exact joinSep_ne_nil _ _ _ (by decide)
  · rw [show str "🛒 " = '🛒' :: [' '] from rfl]
    simp only [List.cons_append]
    exact joinSep_ne_nil _ _ _ (sentenceCase_cons_ne_nil _ _ (by decide))
  · exact joinSep_ne_nil _ _ _ (by decide)
  · exact joinSep_ne_nil _ _ _ (by decide)

/-- The concrete example input used in the specification. -/
def primeDayInput : Str := str "Plan my Amazon Prime Day listings"

/-- C3 counterexample: on "Plan my Amazon Prime Day listings" the claim
(task-intent false and followUps of length 2) is false — the word "Plan"
matches the task vocabulary. -/
theorem primeDay_claim_counterexample :
    ¬ (taskVocab primeDayInput = false
       ∧ ((buildHeuristicResponse primeDayInput).followUps.getD []).length = 2) := by
  decide

/-- C3 amended: on "Plan my Amazon Prime Day listings" the detected
marketplaces are exactly ["Amazon"], catalog intent is true, task intent is
true (the word "Plan" matches the task vocabulary), the summary is the
catalog-automation summary, and followUps has exactly 4 entries (2 task
suggestions followed by 2 catalog suggestions). -/
theorem primeDay_characterization :
    marketplaces.filter (fun name => testCI name primeDayInput) = [str "Amazon"]
    ∧ (catalogVocab primeDayInput
        || !(marketplaces.filter (fun name => testCI name primeDayInput)).isEmpty) = true
    ∧ taskVocab primeDayInput = true
    ∧ (buildHeuristicResponse primeDayInput).summary
        = some (str "Catalog automation plan prepared with channel-specific actions.")
    ∧ (buildHeuristicResponse primeDayInput).followUps
        = some (taskFollowUps ++ catalogFollowUps)
    ∧ (taskFollowUps ++ catalogFollowUps).length = 4 := by
  decide

/-- C4: if the input mentions "Amazon" and "Flipkart" (case-insensitively)
and matches no task vocabulary, the reply is exactly the catalog block (no
task block), the catalog heading lists exactly the detected marketplaces in
the fixed set's canonical order (the filter over `marketplaces`), and the
channel list is never the full default set. -/
theorem heuristic_amazon_flipkart_catalog (input : Str)
    (hA : testCI (str "Amazon") input = true)
    (hF : testCI (str "Flipkart") input = true)
    (hT : taskVocab input = false) :
    (buildHeuristicResponse input).reply
      = joinSep (str "\n")
          ((catalogSection
              (joinSep (str ", ") (marketplaces.filter (fun name => testCI name input)))).map
            sentenceCase)
    ∧ str "Amazon" ∈ marketplaces.filter (fun name => testCI name input)
    ∧ str "Flipkart" ∈ marketplaces.filter (fun name => testCI name input)
    ∧ List.Sublist (marketplaces.filter (fun name => testCI name input)) marketplaces
    ∧ joinSep (str ", ") (marketplaces.filter (fun name => testCI name input))
        ≠ str "Amazon, Flipkart, Meesho, and Myntra" := by
  refine ⟨?_, ?_, ?_, List.filter_sublist _, ?_⟩ <;>
    cases hM : testCI (str "Meesho") input <;>
      cases hY : testCI (str "Myntra") input <;>
        simp [buildHeuristicResponse, marketplaces, List.filter, hA, hF, hM, hY, hT] <;>
          decide

/-- C4 witness: the theorem applied to the concrete input
"order from amazon and flipkart". -/
theorem heuristic_amazon_flipkart_catalog_witness :
    testCI (str "Amazon") (str "order from amazon and flipkart") = true
    ∧ testCI (str "Flipkart") (str "order from amazon and flipkart") = true
    ∧ taskVocab (str "order from amazon and flipkart") = false
    ∧ (str "Amazon"
        ∈ marketplaces.filter (fun name => testCI name (str "order from amazon and flipkart"))) :=
  ⟨by decide, by decide, by decide,
   (heuristic_amazon_flipkart_catalog (str "order from amazon and flipkart")
      (by decide) (by decide) (by decide)).2.1⟩

/-- C7: if the input matches neither the catalog vocabulary nor the task
vocabulary and mentions no marketplace, the reply is the standby block only
and followUps is exactly the 2 generic suggestions. -/
theorem heuristic_standby_only (input : Str)
    (hc : catalogVocab input = false)
    (ht : taskVocab input = false)
    (hm : marketplaces.filter (fun name => testCI name input) = []) :
    (buildHeuristicResponse input).reply = joinSep (str "\n") (readySection.map sentenceCase)
    ∧ (buildHeuristicResponse input).followUps = some genericFollowUps
    ∧ genericFollowUps.length = 2 := by
  refine ⟨?_, ?_, by decide⟩ <;> simp [buildHeuristicResponse, hc, ht, hm]

/-- C7 witness: the theorem applied to the concrete input "hello there". -/
theorem heuristic_standby_only_witness :
    catalogVocab (str "hello there") = false
    ∧ taskVocab (str "hello there") = false
    ∧ marketplaces.filter (fun name => testCI name (str "hello there")) = []
    ∧ (buildHeuristicResponse (str "hello there")).followUps = some genericFollowUps :=
  ⟨by decide, by decide, by decide,
   (heuristic_standby_only (str "hello there") (by decide) (by decide) (by decide)).2.1⟩

theorem dropWhile_head_false {α : Type} {p : α → Bool} :
    ∀ {l : List α} {c : α} {r : List α}, l.dropWhile p = c :: r → p c = false := by
  intro l
  induction l with
  | nil => intro c r h; simp [List.dropWhile] at h
  | cons a t ih =>
    intro c r h
    rw [List.dropWhile_cons] at h
    by_cases ha : p a = true
    · exact ih (by simpa [ha] using h)
    · obtain ⟨rfl, -⟩ : c = a ∧ r = t := by
        constructor <;> [skip; skip] <;> simp [ha] at h <;> simp [h.1, h.2]
      simpa using ha

theorem dropWhile_idem {α : Type} {p : α → Bool} (l : List α) :
    (l.dropWhile p).dropWhile p = l.dropWhile p := by
  cases h : l.dropWhile p with
  | nil => simp
  | cons c r =>
    have hc := dropWhile_head_false h
    rw [List.dropWhile_cons, if_neg (by simp [hc])]

theorem dropWhile_append_last_not {α : Type} {p : α → Bool} {c : α}
    (hc : p c = false) (xs : List α) :
    (xs ++ [c]).dropWhile p = xs.dropWhile p ++ [c] := by
  induction xs with
  | nil => simp [List.dropWhile, hc]
  | cons a t ih =>
    rw [List.cons_append, List.dropWhile_cons, List.dropWhile_cons]
    split
    · exact ih
    · simp

/-- Trimming is idempotent. -/
theorem trim_idem (s : Str) : trim (trim s) = trim s := by
  unfold trim
  cases hA : s.dropWhile isJsWs with
  | nil => simp
  | cons c t =>
    have hc : isJsWs c = false := dropWhile_head_false hA
    rw [List.reverse_cons, dropWhile_append_last_not hc, List.reverse_append,
      List.reverse_singleton, List.singleton_append, List.dropWhile_cons,
      if_neg (by simp [hc]), List.reverse_cons, List.reverse_reverse,
      dropWhile_append_last_not hc, dropWhile_idem, List.reverse_append,
      List.reverse_singleton, List.singleton_append]

/-- A message role. -/
inductive Role where
  | user
  | assistant
deriving DecidableEq

/-- A conversation message (`Message` in the source); `id` and `createdAt`
are produced by the environment (`crypto.randomUUID()`, `Date.now()`) and
are supplied as parameters at each creation site. -/
structure Message where
  id : Str
  role : Role
  content : Str
  createdAt : Nat
deriving DecidableEq

/-- The object the client reads from `response.json()`: the fields it
consumes, each possibly absent at runtime (`data.reply ?? …`). -/
structure ClientData where
  reply : Option Str
  summary : Option Str
  followUps : Option (List Str)
deriving DecidableEq

/-- Outcome of the client's `fetch("/api/assistant", …)` round trip: an ok
response with parsed JSON, a non-ok response (which makes the client throw
`Assistant offline (status)`), or a thrown exception (`some m` when it is
an `Error` with message `m`, `none` for a non-`Error` throw). -/
inductive FetchOutcome where
  | success (data : ClientData)
  | httpError (status : Nat)
  | thrown (errMessage : Option Str)
deriving DecidableEq

/-- The VoiceAgent component state owned by the conversation session
controller, plus an observation log `spoken` of the texts handed to speech
synthesis. -/
structure AgentState where
  messages : List Message
  input : Str
  interimTranscript : Str
  isLoading : Bool
  error : Option Str
  autoSpeak : Bool
  spoken : List Str
deriving DecidableEq

/-- The environment-supplied identifiers and timestamps for the (at most)
two messages a submission creates. -/
structure FreshIds where
  userId : Str
  userTime : Nat
  assistantId : Str
  assistantTime : Nat
deriving DecidableEq

/-- Decimal rendering of a number, as JavaScript template interpolation
does for `response.status`. -/
def natStr (n : Nat) : Str := (Nat.repr n).data

/-- The `err.message` of the error thrown on a non-ok response. -/
def offlineContent (status : Nat) : Str :=
  str "Assistant offline (" ++ natStr status ++ str ")"

/-- The visible error content built in the catch branch. -/
def issueContent : Option Str → Str
  | some msg => str "I ran into an issue: " ++ msg ++ str ". Please try again."
  | none => str "I ran into an issue. Please try again."

/-- Function `submitMessage` from the source: one conversation round trip.  Returns
the new state and whether a remote request was issued.  The single
suspension point (the fetch) is resolved by the `outcome` parameter. -/
def submitMessage (s : AgentState) (text : Str) (ids : FreshIds)
    (outcome : FetchOutcome) : AgentState × Bool :=
  let trimmed := trim text
  if trimmed = [] || s.isLoading then (s, false)
  else
    let s1 : AgentState := { s with
      messages := s.messages ++ [Message.mk ids.userId .user trimmed ids.userTime],
      input := [], interimTranscript := [], isLoading := true, error := none }
    match outcome with
    | .success data =>
      let reply := data.reply.getD (str "I am ready for your next task.")
      let s2 := { s1 with
        messages := s1.messages ++ [Message.mk ids.assistantId .assistant reply ids.assistantTime] }
      let s3 := if s2.autoSpeak then { s2 with spoken := s2.spoken ++ [reply] } else s2
      ({ s3 with isLoading := false }, true)
    | .httpError status =>
      let s2 := { s1 with
        messages := s1.messages ++
          [Message.mk ids.assistantId .assistant (issueContent (some (offlineContent status)))
            ids.assistantTime] }
      ({ s2 with isLoading := false }, true)
    | .thrown m =>
      let s2 := { s1 with
        messages := s1.messages ++
          [Message.mk ids.assistantId .assistant (issueContent m) ids.assistantTime] }
      ({ s2 with isLoading := false }, true)

/-- One segment of a recognition event (`results[i]`): its final flag and
the transcript of its best alternative (`result?.[0]?.transcript`, possibly
absent). -/
structure RecognitionResult where
  isFinal : Bool
  transcript : Option Str
deriving DecidableEq

/-- Function `handleResult` from the source: process one recognition event.  Returns
the new state, the list of finalized utterances handed to the controller,
and whether a remote request was issued. -/
def handleResult (s : AgentState) (resultIndex : Nat)
    (results : List RecognitionResult) (ids : FreshIds) (outcome : FetchOutcome) :
    AgentState × List Str × Bool :=
  let segs := results.drop resultIndex
  let finalTranscript :=
    segs.foldl (fun acc r => if r.isFinal then acc ++ r.transcript.getD [] else acc) []
  let interim :=
    segs.foldl (fun acc r => if r.isFinal then acc else acc ++ r.transcript.getD []) []
  let s1 := { s with interimTranscript := interim }
  if trim finalTranscript = [] then (s1, [], false)
  else
    let r := submitMessage s1 (trim finalTranscript) ids outcome
    (r.1, [trim finalTranscript], r.2)

-- sanity scratch
example :
    (submitMessage ⟨[], [], [], false, none, true, []⟩ (str " hi ") ⟨str "u", 1, str "a", 2⟩
      (.success ⟨some (str "ok"), none, none⟩)).1.messages.map Message.content
    = [str "hi", str "ok"] := by decide
example :
    (handleResult ⟨[], [], str "x", true, none, true, []⟩ 0
      [⟨false, some (str "hel")⟩, ⟨true, some (str "hello")⟩] ⟨str "u", 1, str "a", 2⟩
      (.success ⟨some (str "ok"), none, none⟩)).1.interimTranscript = str "hel" := by decide

/-- An initial component state with no pending round trip. -/
def idleState : AgentState := ⟨[], [], [], false, none, true, []⟩

/-- A component state while a round trip is awaiting its response. -/
def busyState : AgentState := ⟨[], [], [], true, none, true, []⟩

/-- Concrete environment-supplied identifiers. -/
def ids0 : FreshIds := ⟨str "u1", 1, str "a1", 2⟩

/-- C6: submitting input that is blank after trimming, or submitting while a
prior round trip is in flight, is a no-op: the state (history included) is
unchanged and no remote request is issued. -/
theorem submit_rejected_noop (s : AgentState) (text : Str) (ids : FreshIds)
    (outcome : FetchOutcome) (h : trim text = [] ∨ s.isLoading = true) :
    submitMessage s text ids outcome = (s, false) := by
  unfold submitMessage
  rcases h with h | h <;> simp [h]

/-- C6 witness: blank input " " on an idle state is a no-op. -/
theorem submit_rejected_noop_witness :
    trim (str " ") = []
    ∧ submitMessage idleState (str " ") ids0 (.success ⟨some (str "ok"), none, none⟩)
        = (idleState, false) :=
  ⟨by decide,
   submit_rejected_noop idleState (str " ") ids0 (.success ⟨some (str "ok"), none, none⟩)
     (Or.inl (by decide))⟩

/-- C9: every accepted submission (non-blank, none in flight) appends, on
every execution path, exactly the user utterance and one assistant
utterance, and releases the awaiting-response state. -/
theorem submit_always_replies (s : AgentState) (text : Str) (ids : FreshIds)
    (outcome : FetchOutcome) (hb : trim text ≠ []) (hl : s.isLoading = false) :
    ∃ reply : Str,
      (submitMessage s text ids outcome).1.messages
        = s.messages ++ [Message.mk ids.userId .user (trim text) ids.userTime,
            Message.mk ids.assistantId .assistant reply ids.assistantTime]
      ∧ (submitMessage s text ids outcome).1.isLoading = false := by
  unfold submitMessage
  cases outcome with
  | success data =>
    exact ⟨data.reply.getD (str "I am ready for your next task."),
      by simp [hb, hl, apply_ite], by simp [hb, hl, apply_ite]⟩
  | httpError status =>
    exact ⟨issueContent (some (offlineContent status)), by simp [hb, hl], by simp [hb, hl]⟩
  | thrown m =>
    exact ⟨issueContent m, by simp [hb, hl], by simp [hb, hl]⟩

/-- C9 witness: the theorem applied to a concrete failing round trip. -/
theorem submit_always_replies_witness :
    trim (str "hi") ≠ []
    ∧ idleState.isLoading = false
    ∧ ∃ reply : Str,
        (submitMessage idleState (str "hi") ids0 (.httpError 500)).1.messages
          = idleState.messages ++ [Message.mk ids0.userId .user (trim (str "hi")) ids0.userTime,
              Message.mk ids0.assistantId .assistant reply ids0.assistantTime]
        ∧ (submitMessage idleState (str "hi") ids0 (.httpError 500)).1.isLoading = false :=
  ⟨by decide, by decide,
   submit_always_replies idleState (str "hi") ids0 (.httpError 500) (by decide) (by decide)⟩

/-- C8 amended: on a successful round trip the appended assistant utterance
carries the returned `reply`, defaulting to the fixed standby line only when
`reply` is absent (nullish) — an empty-string `reply` is appended as-is —
and the reply text is handed to speech synthesis exactly when auto-speak is
enabled. -/
theorem submit_success_reply (s : AgentState) (text : Str) (ids : FreshIds)
    (data : ClientData) (hb : trim text ≠ []) (hl : s.isLoading = false) :
    (submitMessage s text ids (.success data)).1.messages
      = s.messages ++ [Message.mk ids.userId .user (trim text) ids.userTime,
          Message.mk ids.assistantId .assistant
            (data.reply.getD (str "I am ready for your next task.")) ids.assistantTime]
    ∧ (submitMessage s text ids (.success data)).1.spoken
        = (if s.autoSpeak then
            s.spoken ++ [data.reply.getD (str "I am ready for your next task.")]
          else s.spoken)
    ∧ (submitMessage s text ids (.success data)).1.isLoading = false := by
  unfold submitMessage
  refine ⟨?_, ?_, ?_⟩ <;> simp [hb, hl, apply_ite]

/-- C8 witness: the theorem applied to a concrete successful round trip
whose response has no `reply` field, so the standby default is used. -/
theorem submit_success_reply_witness :
    trim (str "status update") ≠ []
    ∧ idleState.isLoading = false
    ∧ (submitMessage idleState (str "status update") ids0
          (.success ⟨none, none, none⟩)).1.messages
        = idleState.messages
            ++ [Message.mk ids0.userId .user (trim (str "status update")) ids0.userTime,
                Message.mk ids0.assistantId .assistant
                  ((none : Option Str).getD (str "I am ready for your next task."))
                  ids0.assistantTime] :=
  ⟨by decide, by decide,
   (submit_success_reply idleState (str "status update") ids0 ⟨none, none, none⟩
      (by decide) (by decide)).1⟩

/-- C8 counterexample: a response whose `reply` is the empty string is
appended as-is — the assistant utterance content is empty and the standby
default is not substituted, so "the appended assistant content is never
empty" is false. -/
theorem submit_empty_reply_counterexample :
    (submitMessage idleState (str "hi") ids0
        (.success ⟨some [], none, none⟩)).1.messages.map Message.content
      = [str "hi", []]
    ∧ ([] : Str) ≠ str "I am ready for your next task." := by decide

/-- C5 amended: for a recognition event whose new segments are one interim
and one final segment, the handler replaces the interim buffer and, when the
final text is non-empty after trimming, emits exactly one finalized
utterance to the controller; provided no round trip is in flight, the
submission is accepted and the interim transcript ends up cleared. -/
theorem handleResult_final_segment (s : AgentState) (a b : RecognitionResult)
    (resultIndex : Nat) (results : List RecognitionResult) (ids : FreshIds)
    (outcome : FetchOutcome)
    (hseg : results.drop resultIndex = [a, b])
    (ha : a.isFinal = false) (hb : b.isFinal = true)
    (hf : trim (b.transcript.getD []) ≠ [])
    (hl : s.isLoading = false) :
    (handleResult s resultIndex results ids outcome).2.1 = [trim (b.transcript.getD [])]
    ∧ (handleResult s resultIndex results ids outcome).1.interimTranscript = [] := by
  unfold handleResult
  rw [hseg]
  refine ⟨?_, ?_⟩ <;>
    cases outcome <;>
      simp [ha, hb, hf, hl, submitMessage, trim_idem, apply_ite]

/-- A recognition event batch with one interim and one final segment. -/
def mixedEvent : List RecognitionResult :=
  [⟨false, some (str "hel")⟩, ⟨true, some (str "hello")⟩]

/-- C5 witness: the theorem applied to a concrete batch on an idle state. -/
theorem handleResult_final_segment_witness :
    mixedEvent.drop 0 = [⟨false, some (str "hel")⟩, ⟨true, some (str "hello")⟩]
    ∧ trim ((some (str "hello")).getD []) ≠ []
    ∧ idleState.isLoading = false
    ∧ (handleResult idleState 0 mixedEvent ids0
          (.success ⟨some (str "ok"), none, none⟩)).2.1
        = [trim ((some (str "hello")).getD [])]
    ∧ (handleResult idleState 0 mixedEvent ids0
          (.success ⟨some (str "ok"), none, none⟩)).1.interimTranscript = [] :=
  ⟨by decide, by decide, by decide,
   (handleResult_final_segment idleState ⟨false, some (str "hel")⟩ ⟨true, some (str "hello")⟩
      0 mixedEvent ids0 (.success ⟨some (str "ok"), none, none⟩)
      (by decide) (by decide) (by decide) (by decide) (by decide)).1,
   (handleResult_final_segment idleState ⟨false, some (str "hel")⟩ ⟨true, some (str "hello")⟩
      0 mixedEvent ids0 (.success ⟨some (str "ok"), none, none⟩)
      (by decide) (by decide) (by decide) (by decide) (by decide)).2⟩

/-- C5 counterexample: when a round trip is already in flight, the same
event emits the finalized utterance but the controller rejects it, and the
interim transcript is left holding the interim segment's text — it does not
end up cleared, so the claim as stated is false. -/
theorem handleResult_busy_counterexample :
    (handleResult busyState 0 mixedEvent ids0
        (.success ⟨some (str "ok"), none, none⟩)).2.1 = [str "hello"]
    ∧ (handleResult busyState 0 mixedEvent ids0
        (.success ⟨some (str "ok"), none, none⟩)).1.interimTranscript = str "hel"
    ∧ str "hel" ≠ ([] : Str) := by decide

/-- A history entry in the request body (`ClientMessage` in the source). -/
structure ClientMessage where
  role : Role
  content : Str
deriving DecidableEq

/-- Outcome of the server's upstream language-model call: an ok response
whose content parses to some JSON object, or one of the failure modes (all
of which throw inside the handler's try block). -/
inductive RemoteOutcome where
  | ok (parsed : ClientData)
  | httpFailure (status : Nat)
  | missingContent
  | parseFailure
  | networkError
deriving DecidableEq

/-- The JSON body of the server's response. -/
inductive ServerBody where
  | errorBody (message : Str)
  | structured (r : AssistantResponse)
  | passthrough (d : ClientData)
deriving DecidableEq

/-- The trailing history window the handler forwards upstream: entries with
truthy (non-empty) content, then the last 6 (`slice(-6)`). -/
def historyWindow (history : List ClientMessage) : List ClientMessage :=
  let kept := history.filter (fun entry => !entry.content.isEmpty)
  kept.drop (kept.length - 6)

/-- The observable result of one `POST /api/assistant` invocation: HTTP
status, JSON body, the history window sent to the remote model endpoint
(`none` when no upstream call was made), and the inputs the heuristic
generator was invoked on. -/
structure PostResult where
  status : Nat
  body : ServerBody
  sentHistory : Option (List ClientMessage)
  heuristicInputs : List Str
deriving DecidableEq

/-- Handler `POST` from the source route, for a request whose body parsed
as JSON with the given optional `message` field.  `apiKey` models the
`OPENAI_API_KEY` environment variable (absent, or a possibly empty
string), and `remote` resolves the single upstream call. -/
def POST (message : Option Str) (history : List ClientMessage)
    (apiKey : Option Str) (remote : RemoteOutcome) : PostResult :=
  let incomingMessage := trim (message.getD [])
  if incomingMessage = [] then
    ⟨400, .errorBody (str "Message is required."), none, []⟩
  else
    let hasKey := match apiKey with
      | some k => !k.isEmpty
      | none => false
    if !hasKey then
      ⟨200, .structured (buildHeuristicResponse incomingMessage), none, [incomingMessage]⟩
    else
      match remote with
      | .ok parsed => ⟨200, .passthrough parsed, some (historyWindow history), []⟩
      | _ => ⟨200, .structured (buildHeuristicResponse []), some (historyWindow history), [[]]⟩

-- sanity scratch
example :
    (POST (some (str "Amazon")) [] (some (str "k")) (.httpFailure 500)).body
      = .structured (buildHeuristicResponse []) := by decide
example : (POST (some (str "  ")) [] none .networkError).status = 400 := by decide

/-- C10: a parsed POST body whose `message` is absent or blank after
trimming yields HTTP 400 with an error object (no `reply` field), with
neither the remote model nor the heuristic generator invoked. -/
theorem post_blank_message_rejected (message : Option Str)
    (history : List ClientMessage) (apiKey : Option Str) (remote : RemoteOutcome)
    (h : trim (message.getD []) = []) :
    POST message history apiKey remote
      = ⟨400, .errorBody (str "Message is required."), none, []⟩ := by
  unfold POST
  simp [h]

/-- C10 witness: the theorem applied to a blank message. -/
theorem post_blank_message_rejected_witness :
    trim ((some (str "   ")).getD []) = []
    ∧ POST (some (str "   ")) [] (some (str "k")) (.ok ⟨some (str "x"), none, none⟩)
        = ⟨400, .errorBody (str "Message is required."), none, []⟩ :=
  ⟨by decide,
   post_blank_message_rejected (some (str "   ")) [] (some (str "k"))
     (.ok ⟨some (str "x"), none, none⟩) (by decide)⟩

/-- C2 counterexample: with a configured key and a remote endpoint that
returns HTTP 500 for the message "Amazon", the delivered body is not the
heuristic response for the original message — the handler's catch block
invokes the generator on the empty string instead. -/
theorem post_fallback_counterexample :
    (POST (some (str "Amazon")) [] (some (str "key")) (.httpFailure 500)).body
        ≠ .structured (buildHeuristicResponse (str "Amazon"))
    ∧ (POST (some (str "Amazon")) [] (some (str "key")) (.httpFailure 500)).body
        = .structured (buildHeuristicResponse []) := by decide

/-- C2 amended: whenever the remote endpoint fails with a non-2xx status
(e.g. HTTP 500), the handler returns HTTP 200 whose body is the heuristic
response for the empty string — a fixed standby response independent of the
original message — and records that the generator was invoked on "". -/
theorem post_fallback_empty_input (msg : Str) (history : List ClientMessage)
    (key : Str) (status : Nat) (hm : trim msg ≠ []) (hk : key ≠ []) :
    POST (some msg) history (some key) (.httpFailure status)
      = ⟨200, .structured (buildHeuristicResponse []), some (historyWindow history), [[]]⟩ := by
  unfold POST
  simp [hm, hk]

/-- C2 witness: the theorem applied to the message "Amazon" with a remote
HTTP 500. -/
theorem post_fallback_empty_input_witness :
    trim (str "Amazon") ≠ []
    ∧ (str "key" : Str) ≠ []
    ∧ POST (some (str "Amazon")) [] (some (str "key")) (.httpFailure 500)
        = ⟨200, .structured (buildHeuristicResponse []), some (historyWindow []), [[]]⟩ :=
  ⟨by decide, by decide,
   post_fallback_empty_input (str "Amazon") [] (str "key") 500 (by decide) (by decide)⟩
